import Mathlib

/-!
Shallow embedding of the multi-provider AI request orchestrator of
`src/ai.py` and its HTTP boundary (`src/routes/ai_router/schmeas.py`,
`src/routes/ai_router/ai_routes.py`).

The transport calls of the three provider adapters are effectful; they are
abstracted as oracles: a function giving, per candidate model, the outcome of
the whole `try_model` call (for the orchestrator loop), and a function giving
the outcome of the n-th transport call (for the tenacity retry decorator).
Everything else — candidate ordering, error shapes, prompt rendering, the
retry/stop/wait policy, the session open/close structure of each adapter
body — is translated directly from the source.
-/

namespace CoreApi

/-- The three handler functions referenced by `MODEL_CONFIG` in `src/ai.py`:
`mistral_request`, `openai_response_request`, `deepseek_request`. -/
inductive Handler
  | mistral
  | openai
  | deepseek
deriving DecidableEq

/-- `MODEL_CONFIG` of `src/ai.py` (lines 139-155), keeping the identifier keys
and the handler each key maps to; credentials and response-extraction lambdas
are opaque effectful values and are abstracted away. -/
def MODEL_CONFIG : List (String × Handler) :=
  [("mistral-large-latest", Handler.mistral),
   ("gpt-4o-mini", Handler.openai),
   ("deepseek/deepseek-chat-v3-0324:free", Handler.deepseek)]

/-- The keys of `MODEL_CONFIG`: the supported model identifiers. -/
def MODEL_CONFIG_keys : List String := MODEL_CONFIG.map Prod.fst

/-- `DEFAULT_MODEL_ORDER` of `src/ai.py` (lines 158-162). -/
def DEFAULT_MODEL_ORDER : List String :=
  ["mistral-large-latest",
   "deepseek/deepseek-chat-v3-0324:free",
   "gpt-4o-mini"]

/-- The `"voice"` entry of `PROMPT_TEMPLATES` (`src/ai.py` lines 166-173),
byte for byte, including the indentation of the Python triple-quoted string. -/
def voicePrompt : String := "
    Ты - Фрида, бот-помощник компании Фридом. Твоя задача проанализировать вопрос и контекст звукового файла.
    Учитывай, что текст может содержать ошибки, поскольку был обработан из голосового сообщения.
    Если вопроса нет, отвечай согласно тексту голосового сообщения. Используй HTML теги где нужно что-то выделить.
    Делай текст хорошо структурированным и понятным. НЕ ИСПОЛЬЗУЙ MARKDOWN.
    Только эти теги HTML (<b>, <i>, <a>, <code>, <pre>) НЕЛЬЗЯ ИСПОЛЬЗОВАТЬ: <ul>, <br>, <table>, <small> и остальные!
    Отвечай четко и кратко на вопрос и только на русском.
    "

/-- The `"csv"` entry of `PROMPT_TEMPLATES` (`src/ai.py` lines 174-180). -/
def csvPrompt : String := "
    Ты - Фрида, бот-помощник компании Фридом. Обработай файл таблицы по запросу.
    Если нет вопроса, то просто опиши таблицу. Используй HTML теги где нужно что-то выделить.
    Делай текст хорошо структурированным и понятным. НЕ ИСПОЛЬЗУЙ MARKDOWN.
    Только эти теги HTML (<b>, <i>, <a>, <code>, <pre>) НЕЛЬЗЯ ИСПОЛЬЗОВАТЬ: <ul>, <br>, <table>, <small> и остальные!
    Отвечай четко и кратко на вопрос и только на русском.
    "

/-- The `"text"` entry of `PROMPT_TEMPLATES` (`src/ai.py` lines 181-193). -/
def textPrompt : String := "
    Ты — Фрида, бот-помощник компании Фридом. Твоя задача — отвечать на вопросы сотрудников компании,
    основываясь на предоставленных данных из корпоративной WIKI, содержащих важную информацию из статей.

    Инструкции:
    1. Если вопрос не про тарифы, то отвечай на него как обычно.
    2. Если вопрос о тарифах:
       - Если в контексте представлен контекст тарифов, то есть словарь с тарифами, ответь на вопрос как обычно.
       - Если в контексте текст со ссылками на WIKI, это значит, что человек не указал территорию через команду /tariff. Предложи воспользоваться этой командой, чтобы уточнить территорию, а затем задать вопрос.
    3. Не выдумывай факты.
    4. Строго запрещено использовать MARKDOWN. Используй только эти теги HTML (<b>, <i>, <a>, <code>, <pre>) НЕЛЬЗЯ ИСПОЛЬЗОВАТЬ: <ul>, <br>, <table>, <small> и остальные!
    5. Если в контексте указана ссылка начинающиеся на http://wiki.freedom1.ru:8080/ , то прикрепи откуда брал информацию в ответе. В вопросе про тарифы это не нужно.
    "

/-- `PROMPT_TEMPLATES` of `src/ai.py` (lines 165-194) as an association list. -/
def PROMPT_TEMPLATES : List (String × String) :=
  [("voice", voicePrompt), ("csv", csvPrompt), ("text", textPrompt)]

/-- Python's `PROMPT_TEMPLATES.get(input_type, default)`. -/
def promptGet (input_type : String) (default : String) : String :=
  match PROMPT_TEMPLATES.lookup input_type with
  | some t => t
  | none => default

/-- The inline default system prompt of `try_model` (`src/ai.py` line 231),
used by the message-list branch when the input type is unrecognized. -/
def genericSystemPrompt : String :=
  "Ты — бот-помощник. Отвечай четко и кратко на русском языке."

/-- One `{role, content}` chat message. -/
structure Message where
  role : String
  content : String
deriving DecidableEq

/-- The request payload shape an adapter receives from `try_model`: a single
pre-rendered string (OpenAI Responses variant) or a two-element message list
(Mistral and DeepSeek variants). -/
inductive Payload
  | single (input_text : String)
  | chat (messages : List Message)
deriving DecidableEq

/-- The labeled user section rendered by `try_model`:
`f"Запрос: {query}\nКонтекст: {context}\nИстория: {history}"`. -/
def userContent (query context history : String) : String :=
  "Запрос: " ++ query ++ "\nКонтекст: " ++ context ++ "\nИстория: " ++ history

/-- The template string `try_model` actually uses for a handler and input
type: `PROMPT_TEMPLATES.get(input_type, '')` on the `openai_response_request`
branch (`src/ai.py` line 226), and
`PROMPT_TEMPLATES.get(input_type, generic system prompt)` on the message-list
branch (lines 229-232). -/
def templateUsed (handler : Handler) (input_type : String) : String :=
  match handler with
  | Handler.openai => promptGet input_type ""
  | _ => promptGet input_type genericSystemPrompt

/-- The pure payload-construction part of `try_model` (`src/ai.py`
lines 225-240): the handler dispatch and the rendered request payload.
The transport call itself and the response extraction are effectful and are
abstracted by the orchestrator's attempt oracle. -/
def try_model_payload (handler : Handler) (input_type query context history : String) :
    Payload :=
  match handler with
  | Handler.openai =>
    let prompt := promptGet input_type "" ++ "\n\n" ++ userContent query context history
    Payload.single prompt
  | _ =>
    let system_content := promptGet input_type genericSystemPrompt
    Payload.chat
      [{ role := "system", content := system_content },
       { role := "user", content := userContent query context history }]

/-- All the text content carried by a payload (the rendered string, or the
concatenation of the message contents). -/
def payloadContent : Payload → String
  | Payload.single t => t
  | Payload.chat msgs => String.join (msgs.map Message.content)

/-- A substring containment predicate: `needle` occurs literally in `s`. -/
def containsStr (s needle : String) : Prop :=
  ∃ l r, s = l ++ needle ++ r

/-! ### The orchestrator `get_ai` (`src/ai.py` lines 247-341) -/

/-- The detail body of the `HTTPException`s raised by `get_ai`. -/
structure ErrorBody where
  status : String
  message : String
  error : Option String
deriving DecidableEq

/-- A FastAPI `HTTPException`: a status code and a structured detail body. -/
structure HTTPError where
  status_code : Nat
  detail : ErrorBody
deriving DecidableEq

/-- Python truthiness of the `Optional[str]` parameter `model`: `None` and the
empty string are falsy. -/
def pyTruthy : Option String → Bool
  | none => false
  | some s => s != ""

/-- Python `str()` of the optional model, used where the source interpolates
`model` into a message (`str(None)` is `"None"`; the paths below only ever
apply it to a present value). -/
def pyStr : Option String → String
  | none => "None"
  | some s => s

/-- The 400 detail for an unsupported model (`src/ai.py` lines 284-290). -/
def unsupportedDetail (model : String) : ErrorBody :=
  { status := "error",
    message := "Модель '" ++ model ++ "' не поддерживается",
    error := none }

/-- The 500 detail raised when every model failed (`src/ai.py`
lines 334-341); `error` is `str(last_error)`. -/
def exhaustedDetail (last_error : Option String) : ErrorBody :=
  { status := "error",
    message := "Не удалось получить ответ ни от одной модели",
    error := some (pyStr last_error) }

/-- The fallback marker prepended when a model other than the requested one
produced the answer (`src/ai.py` line 322). -/
def fallbackNote (current original : String) : String :=
  "<i>⚠️ Используется модель " ++ current ++ ", так как " ++ original ++
    " недоступна</i>\n\n"

/-- The guard `if original_model and current_model != original_model`
(`src/ai.py` line 318): Python truthiness of `original_model`, then
inequality with the current candidate. -/
def fallbackCond (original : Option String) (current : String) : Bool :=
  match original with
  | none => false
  | some s => (s != "") && (current != s)

/-- The candidate list `models_to_try` computed by `get_ai` (`src/ai.py`
lines 278-294): `[model] + [m for m in DEFAULT_MODEL_ORDER if m != model]`
when `model` is truthy, else `DEFAULT_MODEL_ORDER`. -/
def candidateOrder (model : Option String) : List String :=
  if pyTruthy model then
    pyStr model :: DEFAULT_MODEL_ORDER.filter (fun m => m != pyStr model)
  else
    DEFAULT_MODEL_ORDER

/-- The `for current_model in models_to_try` loop of `get_ai` (`src/ai.py`
lines 296-341). `attempt` is the oracle for the effectful
`try_model` call: per candidate, either the normalized response text or the
stringified exception. The function also returns the list of candidates
actually attempted, in order. -/
def tryLoop (attempt : String → Except String String) (original : Option String) :
    List String → Option String → List String →
      Except HTTPError String × List String
  | [], last_error, tried => (Except.error ⟨500, exhaustedDetail last_error⟩, tried)
  | current :: rest, last_error, tried =>
    match attempt current with
    | Except.ok response_text =>
      if fallbackCond original current then
        (Except.ok (fallbackNote current (pyStr original) ++ response_text),
         tried ++ [current])
      else
        (Except.ok response_text, tried ++ [current])
    | Except.error e => tryLoop attempt original rest (some e) (tried ++ [current])

/-- `get_ai` (`src/ai.py` lines 247-341), instrumented with the list of
candidates attempted. The unsupported-model check happens before any attempt,
so its branch reports an empty attempted list. -/
def get_aiT (attempt : String → Except String String) (model : Option String) :
    Except HTTPError String × List String :=
  let original_model := model
  if pyTruthy model then
    if MODEL_CONFIG_keys.contains (pyStr model) then
      tryLoop attempt original_model (candidateOrder model) none []
    else
      (Except.error ⟨400, unsupportedDetail (pyStr model)⟩, [])
  else
    tryLoop attempt original_model (candidateOrder model) none []

/-- The result of `get_ai`: the text answer or the raised `HTTPException`. -/
def get_ai (attempt : String → Except String String) (model : Option String) :
    Except HTTPError String :=
  (get_aiT attempt model).1

/-! ### The tenacity retry decorator shared by the three adapters
(`src/ai.py` lines 32-37, 62-66, 103-107). -/

/-- Classification of a transport-call failure, following the exception tuple
of `retry_if_exception_type((asyncio.TimeoutError, ConnectionError,
ValueError))`: the first three classes are retried, anything else is not. -/
inductive ExcClass
  | timeout
  | connError
  | valueError
  | other
deriving DecidableEq

/-- `retry_if_exception_type((asyncio.TimeoutError, ConnectionError,
ValueError))`: which failure classes trigger a retry. -/
def retryableExc : ExcClass → Bool
  | ExcClass.timeout => true
  | ExcClass.connError => true
  | ExcClass.valueError => true
  | ExcClass.other => false

/-- What a decorated adapter call produces for its caller: the success value,
an immediately propagated non-retryable exception, or the single terminal
failure (tenacity's `RetryError` wrapping the last attempt) once the stop
condition is reached. -/
inductive RetryOutcome (α : Type)
  | ok (v : α)
  | raised (e : ExcClass)
  | exhausted (e : ExcClass)
deriving DecidableEq

/-- A decorated call's observable run: the outcome, the number of transport
calls made, and the list of delays slept between consecutive attempts. -/
structure RetryRun (α : Type) where
  outcome : RetryOutcome α
  calls : Nat
  waits : List Nat
deriving DecidableEq

/-- One step of tenacity's loop, starting at attempt number `n` (1-based) with
`fuel` recursion budget: run the transport call; on success stop; on a
retryable failure either stop with the terminal failure when
`stop_after_attempt` is reached, or sleep `wait` and try again; on a
non-retryable failure propagate it at once. `call k` is the oracle giving the
outcome of the k-th transport call. -/
def tenacityGo (wait : Nat) (stopAfter : Nat) (call : Nat → Except ExcClass α) :
    Nat → Nat → RetryRun α
  | 0, _ => { outcome := RetryOutcome.exhausted ExcClass.other, calls := 0, waits := [] }
  | fuel + 1, n =>
    match call n with
    | Except.ok v => { outcome := RetryOutcome.ok v, calls := 1, waits := [] }
    | Except.error e =>
      if retryableExc e then
        if stopAfter ≤ n then
          { outcome := RetryOutcome.exhausted e, calls := 1, waits := [] }
        else
          let r := tenacityGo wait stopAfter call fuel (n + 1)
          { outcome := r.outcome, calls := r.calls + 1, waits := wait :: r.waits }
      else
        { outcome := RetryOutcome.raised e, calls := 1, waits := [] }

/-- The decorator `@retry(stop=stop_after_attempt(stopAfter),
wait=wait_fixed(wait), retry=retry_if_exception_type((TimeoutError,
ConnectionError, ValueError)))` applied to a transport call. The fuel equals
`stopAfter`, which the stop condition never lets the loop outrun. -/
def tenacityRetry (stopAfter wait : Nat) (call : Nat → Except ExcClass α) :
    RetryRun α :=
  tenacityGo wait stopAfter call stopAfter 1

/-- `mistral_request` (`src/ai.py` lines 32-59) viewed through its retry
decorator: the Mistral transport call, abstracted as the oracle `transport`,
wrapped with 3 total attempts and a fixed 2-second wait. -/
def mistral_request (transport : Nat → Except ExcClass α) : RetryRun α :=
  tenacityRetry 3 2 transport

/-- `openai_response_request` (`src/ai.py` lines 62-100) viewed through its
retry decorator: same policy, 3 total attempts, fixed 2-second wait. -/
def openai_response_request (transport : Nat → Except ExcClass α) : RetryRun α :=
  tenacityRetry 3 2 transport

/-- `deepseek_request` (`src/ai.py` lines 103-135) viewed through its retry
decorator: same policy, 3 total attempts, fixed 2-second wait. -/
def deepseek_request (transport : Nat → Except ExcClass α) : RetryRun α :=
  tenacityRetry 3 2 transport

/-- The retry contract claimed for one decorated adapter, relative to its
transport oracle: at most 3 transport calls with a fixed 2-unit delay between
consecutive attempts; a non-retryable first failure propagates at once with
no retry; two retryable failures then a success yield the success value on
the 3rd call; three retryable failures yield exactly one terminal failure
carrying the last cause. -/
def adapterRetryContract (adapter : (Nat → Except ExcClass α) → RetryRun α) : Prop :=
  ∀ transport : Nat → Except ExcClass α,
    ((adapter transport).calls ≤ 3 ∧
      (adapter transport).waits = List.replicate ((adapter transport).calls - 1) 2) ∧
    (∀ e, transport 1 = Except.error e → retryableExc e = false →
      adapter transport = { outcome := RetryOutcome.raised e, calls := 1, waits := [] }) ∧
    (∀ e₁ e₂ v, transport 1 = Except.error e₁ → retryableExc e₁ = true →
      transport 2 = Except.error e₂ → retryableExc e₂ = true →
      transport 3 = Except.ok v →
      adapter transport = { outcome := RetryOutcome.ok v, calls := 3, waits := [2, 2] }) ∧
    (∀ e₁ e₂ e₃, transport 1 = Except.error e₁ → retryableExc e₁ = true →
      transport 2 = Except.error e₂ → retryableExc e₂ = true →
      transport 3 = Except.error e₃ → retryableExc e₃ = true →
      adapter transport =
        { outcome := RetryOutcome.exhausted e₃, calls := 3, waits := [2, 2] })

/-! ### Session open/close structure of the adapter bodies (`src/ai.py`
lines 38-59, 68-100, 109-135). -/

/-- A transport-session event: a session-owning client is created, or such a
client is closed. -/
inductive SessEv
  | openEv
  | closeEv
deriving DecidableEq

/-- A tiny structural language for an adapter body, each constructor mirroring
one Python construct: `emit` a session event (client construction or explicit
close), the transport `call` (which may raise), sequencing, `async with`
(`withResource`: open on entry, close on every exit), and `try/finally`. -/
inductive Prog
  | skip
  | emit (e : SessEv)
  | call
  | seq (p q : Prog)
  | withResource (p : Prog)
  | tryFinally (p cleanup : Prog)

/-- Run a body given whether the transport call raises: the session events in
order, and whether an exception propagates out. -/
def runProg (raises : Bool) : Prog → List SessEv × Bool
  | Prog.skip => ([], false)
  | Prog.emit e => ([e], false)
  | Prog.call => ([], raises)
  | Prog.seq p q =>
    let r₁ := runProg raises p
    if r₁.2 then r₁
    else
      let r₂ := runProg raises q
      (r₁.1 ++ r₂.1, r₂.2)
  | Prog.withResource p =>
    let r := runProg raises p
    (SessEv.openEv :: r.1 ++ [SessEv.closeEv], r.2)
  | Prog.tryFinally p cleanup =>
    let r₁ := runProg raises p
    let r₂ := runProg raises cleanup
    (r₁.1 ++ r₂.1, r₁.2 || r₂.2)

/-- Body of `mistral_request` (`src/ai.py` lines 58-59):
`async with Mistral(api_key=api_key) as client: return await
client.chat.complete_async(...)`. -/
def mistralBody : Prog :=
  Prog.withResource Prog.call

/-- Body of `openai_response_request` (`src/ai.py` lines 89-100),
parameterized by whether `PROXY` is set. With a proxy, the adapter opens an
`httpx.AsyncClient` (a session-owning client) and closes it in the `finally`
block; `AsyncOpenAI` then wraps that client and owns no session of its own.
Without a proxy, `http_client` is `None`, so `AsyncOpenAI(api_key=...,
http_client=None)` creates its own internal session-owning client, and the
`finally` block's `if http_client:` guard closes nothing. -/
def openaiBody (proxy : Bool) : Prog :=
  Prog.seq
    (if proxy then Prog.emit SessEv.openEv else Prog.skip)
    (Prog.seq
      (if proxy then Prog.skip else Prog.emit SessEv.openEv)
      (Prog.tryFinally Prog.call
        (if proxy then Prog.emit SessEv.closeEv else Prog.skip)))

/-- Body of `deepseek_request` (`src/ai.py` lines 128-135): it constructs
`AsyncOpenAI(base_url=..., api_key=...)` — a session-owning client — and
returns the transport call's result with no `async with`, no `finally`, and
no close on any path. -/
def deepseekBody : Prog :=
  Prog.seq (Prog.emit SessEv.openEv) Prog.call

/-- A trace is balanced when it closes as many sessions as it opens. -/
def balancedTrace (t : List SessEv) : Bool :=
  (t.count SessEv.openEv) == (t.count SessEv.closeEv)

/-- A body releases every session it opened on every exit path: its event
trace is balanced both when the transport call succeeds and when it raises. -/
def releasesAllPaths (p : Prog) : Bool :=
  balancedTrace (runProg false p).1 && balancedTrace (runProg true p).1

/-! ### The HTTP boundary (`src/routes/ai_router/schmeas.py`,
`src/routes/ai_router/ai_routes.py`). -/

/-- A raw `POST /v1/ai` body before validation: each field as present or
absent in the incoming JSON. -/
structure AIRequestRaw where
  text : String
  combined_context : String
  chat_history : String
  input_type : Option String
  model : Option String

/-- The validated `AIRequest` Pydantic model (`src/routes/ai_router/schmeas.py`
lines 12-24): `input_type` defaults to `"text"`, `model` defaults to
`"mistral-large-latest"`. -/
structure AIRequest where
  text : String
  combined_context : String
  chat_history : String
  input_type : String
  model : String

/-- Pydantic validation of a raw body: absent fields take their schema
defaults. -/
def parseAIRequest (raw : AIRequestRaw) : AIRequest :=
  { text := raw.text,
    combined_context := raw.combined_context,
    chat_history := raw.chat_history,
    input_type := raw.input_type.getD "text",
    model := raw.model.getD "mistral-large-latest" }

/-- The route handler `get_ai_response` (`src/routes/ai_router/ai_routes.py`
lines 28-54): it always forwards `request_data.model` — a plain string, never
`None` — as the explicit model of `get_ai`. -/
def get_ai_response (attempt : String → Except String String)
    (request_data : AIRequest) : Except HTTPError String × List String :=
  get_aiT attempt (some request_data.model)

/-! ### Concrete oracles used to instantiate the theorems below. -/

/-- An attempt oracle that fails on every candidate except
`"mistral-large-latest"`, which answers `"X"`. -/
def attFallbackW : String → Except String String := fun m =>
  if m == "mistral-large-latest" then Except.ok "X"
  else Except.error ("fail: " ++ m)

/-- An attempt oracle on which every candidate fails. -/
def attAllFailW : String → Except String String := fun m =>
  Except.error ("fail: " ++ m)

/-- An attempt oracle that fails on every candidate except the DeepSeek
one, which answers `"Y"`. -/
def attDeepOkW : String → Except String String := fun m =>
  if m == "deepseek/deepseek-chat-v3-0324:free" then Except.ok "Y"
  else Except.error ("fail: " ++ m)

/-- A transport oracle that times out on the first two calls and succeeds on
the third. -/
def transportThirdOkW : Nat → Except ExcClass String := fun n =>
  if n < 3 then Except.error ExcClass.timeout else Except.ok "v"

/-- A transport oracle that fails every call with a connection error. -/
def transportAllFailW : Nat → Except ExcClass String := fun _ =>
  Except.error ExcClass.connError

/-- A transport oracle that fails at once with a non-retryable error. -/
def transportBadW : Nat → Except ExcClass String := fun _ =>
  Except.error ExcClass.other

/-! ## Helper lemmas about the orchestrator loop -/

/-- If every candidate before `winner` fails and `winner` succeeds with `t`,
the loop stops at `winner`: it returns `t` (annotated exactly when
`fallbackCond` holds) and attempts only the failing prefix plus `winner`,
never the candidates after it. -/
theorem tryLoop_first_success (attempt : String → Except String String)
    (original : Option String) (t : String) :
    ∀ (pre : List String) (winner : String) (post : List String),
      (∀ c ∈ pre, ∃ e, attempt c = Except.error e) →
      attempt winner = Except.ok t →
      ∀ (last_error : Option String) (tried : List String),
        tryLoop attempt original (pre ++ winner :: post) last_error tried =
          ((if fallbackCond original winner then
              Except.ok (fallbackNote winner (pyStr original) ++ t)
            else Except.ok t),
           tried ++ pre ++ [winner]) := by
  intro pre
  induction pre with
  | nil =>
    intro winner post _ hwin last_error tried
    simp only [List.nil_append, tryLoop, hwin]
    cases hc : fallbackCond original winner <;> simp [hc]
  | cons head rest ih =>
    intro winner post hpre hwin last_error tried
    obtain ⟨e, he⟩ := hpre head (List.mem_cons_self head rest)
    simp only [List.cons_append, tryLoop, he, List.append_eq]
    rw [ih winner post (fun c hc => hpre c (List.mem_cons_of_mem head hc)) hwin]
    simp

/-- If every candidate fails, the loop attempts all of them and raises the
500 error carrying the last recorded cause. -/
theorem tryLoop_all_fail (attempt : String → Except String String)
    (original : Option String) (efn : String → String) :
    ∀ (order : List String),
      (∀ c ∈ order, attempt c = Except.error (efn c)) →
      ∀ (last_error : Option String) (tried : List String),
        tryLoop attempt original order last_error tried =
          (Except.error ⟨500,
            exhaustedDetail ((order.map (fun c => some (efn c))).getLastD last_error)⟩,
           tried ++ order) := by
  intro order
  induction order with
  | nil =>
    intro _ last_error tried
    simp [tryLoop]
  | cons head rest ih =>
    intro hfail last_error tried
    have hh := hfail head (List.mem_cons_self head rest)
    simp only [tryLoop, hh]
    rw [ih (fun c hc => hfail c (List.mem_cons_of_mem head hc))]
    rw [List.map_cons, List.getLastD_cons]
    simp

/-- Whenever a truthy explicit model passes the registry check, `get_ai` is
the loop over `candidateOrder` — and it also is when no model is given. -/
theorem get_aiT_eq_tryLoop (attempt : String → Except String String)
    (model : Option String)
    (hok : pyTruthy model = true → MODEL_CONFIG_keys.contains (pyStr model) = true) :
    get_aiT attempt model = tryLoop attempt model (candidateOrder model) none [] := by
  cases h : pyTruthy model with
  | false => simp [get_aiT, h]
  | true =>
    have hc : pyStr model ∈ MODEL_CONFIG_keys := by
      have hcc := hok h
      simpa using hcc
    simp [get_aiT, h, hc]

/-- The annotation guard holds exactly when a nonempty explicit model was
given and the succeeding candidate differs from it. -/
theorem fallbackCond_iff (model : Option String) (winner : String) :
    fallbackCond model winner = true ↔
      ∃ m, model = some m ∧ m ≠ "" ∧ winner ≠ m := by
  cases model with
  | none => simp [fallbackCond]
  | some s => simp [fallbackCond]

/-! ## The claims -/

/-- **C1**: whenever some candidate succeeds, `get_ai` returns at the first
success — the attempted list is exactly the failing prefix plus the winner,
never a later candidate — and the fallback annotation is prepended if and
only if a nonempty explicit model was supplied and the succeeding candidate
differs from it; otherwise the normalized text is returned unmodified. -/
theorem get_ai_first_success_spec (attempt : String → Except String String)
    (model : Option String) (pre post : List String) (winner t : String)
    (hok : pyTruthy model = true → MODEL_CONFIG_keys.contains (pyStr model) = true)
    (horder : candidateOrder model = pre ++ winner :: post)
    (hpre : ∀ c ∈ pre, ∃ e, attempt c = Except.error e)
    (hwin : attempt winner = Except.ok t) :
    (get_aiT attempt model).2 = pre ++ [winner] ∧
    get_ai attempt model =
      (if fallbackCond model winner then
        Except.ok (fallbackNote winner (pyStr model) ++ t)
      else Except.ok t) ∧
    (fallbackCond model winner = true ↔
      ∃ m, model = some m ∧ m ≠ "" ∧ winner ≠ m) := by
  have key := get_aiT_eq_tryLoop attempt model hok
  have main := tryLoop_first_success attempt model t pre winner post hpre hwin none []
  rw [horder] at key
  refine ⟨?_, ?_, fallbackCond_iff model winner⟩
  · rw [key, main]
    simp
  · rw [get_ai, key, main]

/-- Witness for C1: explicit model `"gpt-4o-mini"` fails, the next candidate
`"mistral-large-latest"` answers `"X"`, and `get_ai` returns the annotated
text after attempting exactly those two candidates. -/
theorem get_ai_first_success_spec_witness :
    (get_aiT attFallbackW (some "gpt-4o-mini")).2 =
      ["gpt-4o-mini", "mistral-large-latest"] ∧
    get_ai attFallbackW (some "gpt-4o-mini") =
      (if fallbackCond (some "gpt-4o-mini") "mistral-large-latest" then
        Except.ok
          (fallbackNote "mistral-large-latest" (pyStr (some "gpt-4o-mini")) ++ "X")
      else Except.ok "X") ∧
    (fallbackCond (some "gpt-4o-mini") "mistral-large-latest" = true ↔
      ∃ m, (some "gpt-4o-mini" : Option String) = some m ∧ m ≠ "" ∧
        "mistral-large-latest" ≠ m) :=
  get_ai_first_success_spec attFallbackW (some "gpt-4o-mini")
    ["gpt-4o-mini"] ["deepseek/deepseek-chat-v3-0324:free"]
    "mistral-large-latest" "X"
    (fun _ => by decide)
    (by decide)
    (fun c hc => by
      rw [List.mem_singleton] at hc
      subst hc
      exact ⟨"fail: gpt-4o-mini", rfl⟩)
    rfl

/-- **C2**: the candidate order is the explicit model followed by the default
order minus it when an explicit (nonempty) model is given, else exactly the
default order; it never repeats an identifier and stays inside the Model
Registry keys; and explicit `"gpt-4o-mini"` yields
`[gpt-4o-mini, mistral-large-latest, deepseek/deepseek-chat-v3-0324:free]`
with `"gpt-4o-mini"` appearing exactly once. -/
theorem candidateOrder_spec (model : Option String)
    (hok : pyTruthy model = true → MODEL_CONFIG_keys.contains (pyStr model) = true) :
    (∀ m : String, m ≠ "" →
      candidateOrder (some m) = m :: DEFAULT_MODEL_ORDER.filter (fun x => x != m)) ∧
    candidateOrder none = DEFAULT_MODEL_ORDER ∧
    (candidateOrder model).Nodup ∧
    (∀ x ∈ candidateOrder model, x ∈ MODEL_CONFIG_keys) ∧
    candidateOrder (some "gpt-4o-mini") =
      ["gpt-4o-mini", "mistral-large-latest",
       "deepseek/deepseek-chat-v3-0324:free"] ∧
    (candidateOrder (some "gpt-4o-mini")).count "gpt-4o-mini" = 1 := by
  have hdef : ∀ x ∈ DEFAULT_MODEL_ORDER, x ∈ MODEL_CONFIG_keys := by decide
  have hnodup : DEFAULT_MODEL_ORDER.Nodup := by decide
  refine ⟨?_, rfl, ?_, ?_, by decide, by decide⟩
  · intro m hm
    simp [candidateOrder, pyTruthy, pyStr, hm]
  · cases h : pyTruthy model with
    | false => simpa [candidateOrder, h] using hnodup
    | true =>
      simp only [candidateOrder, h, if_true]
      refine List.Nodup.cons ?_ (hnodup.filter _)
      intro hmem
      have := List.of_mem_filter hmem
      simp at this
  · intro x hx
    cases h : pyTruthy model with
    | false =>
      rw [candidateOrder, h] at hx
      exact hdef x (by simpa using hx)
    | true =>
      rw [candidateOrder, h] at hx
      simp only [if_true, List.mem_cons] at hx
      rcases hx with rfl | hx
      · have hcc := hok h
        simpa using hcc
      · exact hdef x (List.mem_of_mem_filter hx)

/-- Witness for C2: instantiated at the supported explicit model
`"gpt-4o-mini"`, whose candidate order is the stated three-element list with
no duplicate. -/
theorem candidateOrder_spec_witness :
    (candidateOrder (some "gpt-4o-mini")).Nodup ∧
    candidateOrder (some "gpt-4o-mini") =
      ["gpt-4o-mini", "mistral-large-latest",
       "deepseek/deepseek-chat-v3-0324:free"] ∧
    (candidateOrder (some "gpt-4o-mini")).count "gpt-4o-mini" = 1 := by
  have h := candidateOrder_spec (some "gpt-4o-mini") (fun _ => by decide)
  exact ⟨h.2.2.1, h.2.2.2.2.1, h.2.2.2.2.2⟩

/-- **C3**: a nonempty explicit model that is not a registry key makes
`get_ai` fail with the 400 error body
`{status: "error", message: "Модель '<m>' не поддерживается"}` before any
candidate attempt: for every attempt oracle whatsoever, the result is that
error and the attempted list is empty. -/
theorem get_ai_unsupported_spec (attempt : String → Except String String)
    (m : String) (hm : m ≠ "")
    (hns : MODEL_CONFIG_keys.contains m = false) :
    get_aiT attempt (some m) =
      (Except.error ⟨400,
        { status := "error",
          message := "Модель '" ++ m ++ "' не поддерживается",
          error := none }⟩,
       []) := by
  have ht : pyTruthy (some m) = true := by simp [pyTruthy, hm]
  have hmem : m ∉ MODEL_CONFIG_keys := by simpa using hns
  simp [get_aiT, ht, pyStr, hmem, unsupportedDetail]

/-- Witness for C3: the unsupported identifier `"gpt-5"` yields the 400 error
with zero candidates attempted, whatever the adapters would have done. -/
theorem get_ai_unsupported_spec_witness :
    get_aiT attFallbackW (some "gpt-5") =
      (Except.error ⟨400,
        { status := "error",
          message := "Модель '" ++ "gpt-5" ++ "' не поддерживается",
          error := none }⟩,
       []) :=
  get_ai_unsupported_spec attFallbackW "gpt-5" (by decide) (by decide)

/-- **C4**: when every candidate attempt fails, `get_ai` fails with the 500
body `{status: "error", message: "Не удалось получить ответ ни от одной
модели", error: <cause>}` where the carried cause is exactly the failure of
the last candidate attempted — which is `"gpt-4o-mini"`, the third
default-order entry, when no explicit model was given. -/
theorem get_ai_exhausted_spec (attempt : String → Except String String)
    (model : Option String) (efn : String → String)
    (hok : pyTruthy model = true → MODEL_CONFIG_keys.contains (pyStr model) = true)
    (hfail : ∀ c ∈ candidateOrder model, attempt c = Except.error (efn c)) :
    ∃ lastc, (candidateOrder model).getLast? = some lastc ∧
      get_aiT attempt model =
        (Except.error ⟨500,
          { status := "error",
            message := "Не удалось получить ответ ни от одной модели",
            error := some (efn lastc) }⟩,
         candidateOrder model) ∧
      (model = none → lastc = "gpt-4o-mini") := by
  have key := get_aiT_eq_tryLoop attempt model hok
  have main := tryLoop_all_fail attempt model efn (candidateOrder model) hfail none []
  have hne : candidateOrder model ≠ [] := by
    cases h : pyTruthy model with
    | false => simp [candidateOrder, h, DEFAULT_MODEL_ORDER]
    | true => simp [candidateOrder, h]
  obtain ⟨lastc, hl⟩ := Option.isSome_iff_exists.mp (List.getLast?_isSome.mpr hne)
  refine ⟨lastc, hl, ?_, ?_⟩
  · have hlast : ((candidateOrder model).map (fun c => some (efn c))).getLastD none =
        some (efn lastc) := by
      rw [List.getLastD_eq_getLast?, List.getLast?_map, hl]
      rfl
    rw [key, main, hlast]
    simp [exhaustedDetail, pyStr]
  · intro hnone
    subst hnone
    have : (candidateOrder none).getLast? = some "gpt-4o-mini" := by decide
    rw [this] at hl
    exact (Option.some.injEq _ _).mp hl.symm

/-- Witness for C4: no explicit model, every candidate fails with
`"fail: <name>"`; the 500 error carries the third default candidate's
failure `"fail: gpt-4o-mini"`. -/
theorem get_ai_exhausted_spec_witness :
    ∃ lastc, (candidateOrder none).getLast? = some lastc ∧
      get_aiT attAllFailW none =
        (Except.error ⟨500,
          { status := "error",
            message := "Не удалось получить ответ ни от одной модели",
            error := some ("fail: " ++ lastc) }⟩,
         candidateOrder none) ∧
      (none = (none : Option String) → lastc = "gpt-4o-mini") :=
  get_ai_exhausted_spec attAllFailW none (fun c => "fail: " ++ c)
    (fun h => by simp [pyTruthy] at h)
    (fun c _ => rfl)

/-- The retry policy of `tenacityRetry 3 2` satisfies the adapter retry
contract, whatever the transport does. -/
theorem tenacityRetry_contract (α : Type) :
    adapterRetryContract (fun t : Nat → Except ExcClass α => tenacityRetry 3 2 t) := by
  intro transport
  refine ⟨?_, ?_, ?_, ?_⟩
  · rcases h1 : transport 1 with e | v
    case error =>
      rcases he : retryableExc e with _ | _
      · simp [tenacityRetry, tenacityGo, h1, he]
      · rcases h2 : transport 2 with e2 | v2
        case error =>
          rcases he2 : retryableExc e2 with _ | _
          · simp [tenacityRetry, tenacityGo, h1, he, h2, he2]
          · rcases h3 : transport 3 with e3 | v3
            case error =>
              rcases he3 : retryableExc e3 with _ | _ <;>
                simp [tenacityRetry, tenacityGo, h1, he, h2, he2, h3, he3,
                  List.replicate]
            case ok =>
              simp [tenacityRetry, tenacityGo, h1, he, h2, he2, h3, List.replicate]
        case ok => simp [tenacityRetry, tenacityGo, h1, he, h2, List.replicate]
    case ok => simp [tenacityRetry, tenacityGo, h1]
  · intro e h1 he
    simp [tenacityRetry, tenacityGo, h1, he]
  · intro e₁ e₂ v h1 he1 h2 he2 h3
    simp [tenacityRetry, tenacityGo, h1, he1, h2, he2, h3, List.replicate]
  · intro e₁ e₂ e₃ h1 he1 h2 he2 h3 he3
    simp [tenacityRetry, tenacityGo, h1, he1, h2, he2, h3, he3, List.replicate]

/-- **C5**: each of the three adapters — `mistral_request`,
`openai_response_request`, `deepseek_request` — retries its transport call up
to 3 total attempts with a fixed 2-unit delay between attempts, retries only
on timeout / connection / invalid-argument failures while any other failure
propagates immediately without retry, succeeds transparently when the 3rd
attempt succeeds after two retryable failures, and produces exactly one
terminal failure when all 3 attempts fail. -/
theorem adapter_retry_spec (α : Type) :
    adapterRetryContract (α := α) mistral_request ∧
    adapterRetryContract (α := α) openai_response_request ∧
    adapterRetryContract (α := α) deepseek_request :=
  ⟨tenacityRetry_contract α, tenacityRetry_contract α, tenacityRetry_contract α⟩

/-- Witness for C5: concrete transports — two timeouts then success yields
the success value after 3 calls and waits `[2, 2]`; a non-retryable failure
propagates after a single call; three connection failures yield one terminal
failure. -/
theorem adapter_retry_spec_witness :
    mistral_request transportThirdOkW =
      { outcome := RetryOutcome.ok "v", calls := 3, waits := [2, 2] } ∧
    openai_response_request transportBadW =
      { outcome := RetryOutcome.raised ExcClass.other, calls := 1, waits := [] } ∧
    deepseek_request transportAllFailW =
      { outcome := RetryOutcome.exhausted ExcClass.connError, calls := 3,
        waits := [2, 2] } := by
  have h := adapter_retry_spec String
  refine ⟨?_, ?_, ?_⟩
  · exact (h.1 transportThirdOkW).2.2.1 ExcClass.timeout ExcClass.timeout "v"
      rfl rfl rfl rfl rfl
  · exact (h.2.1 transportBadW).2.1 ExcClass.other rfl rfl
  · exact (h.2.2 transportAllFailW).2.2.2 ExcClass.connError ExcClass.connError
      ExcClass.connError rfl rfl rfl rfl rfl rfl

set_option maxRecDepth 10000

/-- **C6** counterexample: for the unrecognized input category `"pdf"`, the
OpenAI variant of `try_model` uses the empty string as template — not the
generic Russian-language system instruction the claim asserts for every
adapter variant (which the Mistral variant does use). -/
theorem prompt_fallback_counterexample :
    templateUsed Handler.openai "pdf" = "" ∧
    templateUsed Handler.mistral "pdf" = genericSystemPrompt ∧
    genericSystemPrompt ≠ "" := by
  exact ⟨rfl, rfl, by decide⟩

/-- **C6** (amended): for every input category outside {voice, csv, text},
`try_model` does not fail: the message-list variants (Mistral, DeepSeek) fall
back to the generic Russian-language system instruction, while the OpenAI
single-string variant falls back to the empty template. -/
theorem prompt_fallback_amended (input_type : String)
    (hv : input_type ∉ (["voice", "csv", "text"] : List String)) :
    templateUsed Handler.mistral input_type = genericSystemPrompt ∧
    templateUsed Handler.deepseek input_type = genericSystemPrompt ∧
    templateUsed Handler.openai input_type = "" := by
  simp only [List.mem_cons, List.not_mem_nil, or_false, not_or] at hv
  obtain ⟨h1, h2, h3⟩ := hv
  have b1 : (input_type == "voice") = false := beq_eq_false_iff_ne.mpr h1
  have b2 : (input_type == "csv") = false := beq_eq_false_iff_ne.mpr h2
  have b3 : (input_type == "text") = false := beq_eq_false_iff_ne.mpr h3
  have hlookup : PROMPT_TEMPLATES.lookup input_type = none := by
    simp [PROMPT_TEMPLATES, List.lookup, b1, b2, b3]
  exact ⟨by simp [templateUsed, promptGet, hlookup],
    by simp [templateUsed, promptGet, hlookup],
    by simp [templateUsed, promptGet, hlookup]⟩

/-- Witness for the amended C6, at the concrete unrecognized category
`"pdf"`. -/
theorem prompt_fallback_amended_witness :
    templateUsed Handler.mistral "pdf" = genericSystemPrompt ∧
    templateUsed Handler.deepseek "pdf" = genericSystemPrompt ∧
    templateUsed Handler.openai "pdf" = "" :=
  prompt_fallback_amended "pdf" (by decide)

/-- **C7**: for input category `"voice"` with query `"Q"`, context `"C"`,
history `"H"`, the rendered payload of every adapter variant — the
single-string prompt for the OpenAI variant, the message list for the Mistral
and DeepSeek variants — contains the literal substrings `"Q"`, `"C"`, `"H"`
and the full voice template text. -/
theorem voice_payload_contains_spec :
    (containsStr
        (payloadContent (try_model_payload Handler.mistral "voice" "Q" "C" "H"))
        voicePrompt ∧
      containsStr
        (payloadContent (try_model_payload Handler.mistral "voice" "Q" "C" "H")) "Q" ∧
      containsStr
        (payloadContent (try_model_payload Handler.mistral "voice" "Q" "C" "H")) "C" ∧
      containsStr
        (payloadContent (try_model_payload Handler.mistral "voice" "Q" "C" "H")) "H") ∧
    (containsStr
        (payloadContent (try_model_payload Handler.openai "voice" "Q" "C" "H"))
        voicePrompt ∧
      containsStr
        (payloadContent (try_model_payload Handler.openai "voice" "Q" "C" "H")) "Q" ∧
      containsStr
        (payloadContent (try_model_payload Handler.openai "voice" "Q" "C" "H")) "C" ∧
      containsStr
        (payloadContent (try_model_payload Handler.openai "voice" "Q" "C" "H")) "H") ∧
    (containsStr
        (payloadContent (try_model_payload Handler.deepseek "voice" "Q" "C" "H"))
        voicePrompt ∧
      containsStr
        (payloadContent (try_model_payload Handler.deepseek "voice" "Q" "C" "H")) "Q" ∧
      containsStr
        (payloadContent (try_model_payload Handler.deepseek "voice" "Q" "C" "H")) "C" ∧
      containsStr
        (payloadContent (try_model_payload Handler.deepseek "voice" "Q" "C" "H")) "H") := by
  refine ⟨⟨⟨"", userContent "Q" "C" "H", by decide⟩,
      ⟨voicePrompt ++ "Запрос: ", "\nКонтекст: C\nИстория: H", by decide⟩,
      ⟨voicePrompt ++ "Запрос: Q\nКонтекст: ", "\nИстория: H", by decide⟩,
      ⟨voicePrompt ++ "Запрос: Q\nКонтекст: C\nИстория: ", "", by decide⟩⟩,
    ⟨⟨"", "\n\n" ++ userContent "Q" "C" "H", by decide⟩,
      ⟨voicePrompt ++ "\n\nЗапрос: ", "\nКонтекст: C\nИстория: H", by decide⟩,
      ⟨voicePrompt ++ "\n\nЗапрос: Q\nКонтекст: ", "\nИстория: H", by decide⟩,
      ⟨voicePrompt ++ "\n\nЗапрос: Q\nКонтекст: C\nИстория: ", "", by decide⟩⟩,
    ⟨⟨"", userContent "Q" "C" "H", by decide⟩,
      ⟨voicePrompt ++ "Запрос: ", "\nКонтекст: C\nИстория: H", by decide⟩,
      ⟨voicePrompt ++ "Запрос: Q\nКонтекст: ", "\nИстория: H", by decide⟩,
      ⟨voicePrompt ++ "Запрос: Q\nКонтекст: C\nИстория: ", "", by decide⟩⟩⟩

/-- **C8** counterexample: `deepseek_request` opens a session-owning client
and closes it on no path at all — even its success path ends with the session
still open — so it is false that every adapter releases the session it opened
on every exit path. -/
theorem session_release_counterexample :
    runProg false deepseekBody = ([SessEv.openEv], false) ∧
    runProg true deepseekBody = ([SessEv.openEv], true) ∧
    releasesAllPaths deepseekBody = false := by
  exact ⟨rfl, rfl, rfl⟩

/-- **C8** (amended): `mistral_request` (via `async with`) and, when a proxy
is configured, `openai_response_request` (via its `try/finally`) release the
session they open on every exit path, including the exception path; but
`deepseek_request` never releases the client session it opens, and neither
does `openai_response_request` release its internally created client when no
proxy is configured. -/
theorem session_release_amended :
    releasesAllPaths mistralBody = true ∧
    releasesAllPaths (openaiBody true) = true ∧
    releasesAllPaths (openaiBody false) = false ∧
    releasesAllPaths deepseekBody = false := by
  exact ⟨rfl, rfl, rfl, rfl⟩

/-- **C9**: a `POST /v1/ai` body that omits `model` is validated to
`model = "mistral-large-latest"` (the schema default), so the route invokes
`get_ai` with that explicit model — never with `None` — and consequently a
fallback annotation is prepended whenever the first succeeding candidate is
not `"mistral-large-latest"`, even though the caller never named a model. -/
theorem route_default_model_spec (raw : AIRequestRaw)
    (attempt : String → Except String String) (hm : raw.model = none) :
    (parseAIRequest raw).model = "mistral-large-latest" ∧
    get_ai_response attempt (parseAIRequest raw) =
      get_aiT attempt (some "mistral-large-latest") ∧
    (∀ (pre post : List String) (winner t : String),
      candidateOrder (some "mistral-large-latest") = pre ++ winner :: post →
      (∀ c ∈ pre, ∃ e, attempt c = Except.error e) →
      attempt winner = Except.ok t →
      winner ≠ "mistral-large-latest" →
      (get_ai_response attempt (parseAIRequest raw)).1 =
        Except.ok (fallbackNote winner "mistral-large-latest" ++ t)) := by
  have hp : (parseAIRequest raw).model = "mistral-large-latest" := by
    simp [parseAIRequest, hm]
  refine ⟨hp, ?_, ?_⟩
  · rw [get_ai_response, hp]
  · intro pre post winner t horder hpre hwin hne
    have key := get_aiT_eq_tryLoop attempt (some "mistral-large-latest")
      (fun _ => by decide)
    rw [horder] at key
    have main := tryLoop_first_success attempt (some "mistral-large-latest") t
      pre winner post hpre hwin none []
    have hcond : fallbackCond (some "mistral-large-latest") winner = true := by
      simp [fallbackCond, hne]
    rw [get_ai_response, hp, key, main]
    simp [hcond, pyStr]

/-- Witness for C9: a raw body with no `model` field, an attempt oracle on
which `"mistral-large-latest"` fails and the DeepSeek candidate answers
`"Y"`: the route's response text carries the fallback annotation. -/
theorem route_default_model_spec_witness :
    (parseAIRequest ⟨"q", "c", "h", none, none⟩).model = "mistral-large-latest" ∧
    (get_ai_response attDeepOkW (parseAIRequest ⟨"q", "c", "h", none, none⟩)).1 =
      Except.ok
        (fallbackNote "deepseek/deepseek-chat-v3-0324:free" "mistral-large-latest"
          ++ "Y") := by
  have h := route_default_model_spec ⟨"q", "c", "h", none, none⟩ attDeepOkW rfl
  refine ⟨h.1, ?_⟩
  exact h.2.2 ["mistral-large-latest"] ["gpt-4o-mini"]
    "deepseek/deepseek-chat-v3-0324:free" "Y"
    (by decide)
    (fun c hc => by
      rw [List.mem_singleton] at hc
      subst hc
      exact ⟨"fail: mistral-large-latest", rfl⟩)
    rfl
    (by decide)

/-- The loop never annotates for the empty-string explicit model: it behaves
exactly as with no model at all. -/
theorem tryLoop_empty_model (attempt : String → Except String String) :
    ∀ (order : List String) (last_error : Option String) (tried : List String),
      tryLoop attempt (some "") order last_error tried =
        tryLoop attempt none order last_error tried := by
  intro order
  induction order with
  | nil =>
    intro last_error tried
    rfl
  | cons head rest ih =>
    intro last_error tried
    simp only [tryLoop]
    cases h : attempt head with
    | ok t => simp [fallbackCond]
    | error e => exact ih (some e) (tried ++ [head])

/-- **C10**: the empty string is absent from the Model Registry, yet
`get_ai` with the empty string as explicit model raises no 400 error: its
outcome — the result and the candidates attempted — is identical to the call
with no model, so the static default order is tried with no fallback
annotation ever added. -/
theorem empty_model_spec :
    MODEL_CONFIG_keys.contains "" = false ∧
    (∀ attempt : String → Except String String,
      get_aiT attempt (some "") = get_aiT attempt none) ∧
    (∀ current, fallbackCond (some "") current = false) := by
  refine ⟨by decide, ?_, ?_⟩
  · intro attempt
    have h1 : get_aiT attempt (some "") =
        tryLoop attempt (some "") DEFAULT_MODEL_ORDER none [] := by
      simp [get_aiT, pyTruthy, candidateOrder]
    have h2 : get_aiT attempt none =
        tryLoop attempt none DEFAULT_MODEL_ORDER none [] := by
      simp [get_aiT, pyTruthy, candidateOrder]
    rw [h1, h2, tryLoop_empty_model]
  · intro current
    simp [fallbackCond]

end CoreApi
